import Mathlib

/-!
Shallow embedding of the ai-growth-analyst-agent repository (Python/FastAPI
conversational analytics agent), covering:

* `app/errors/error.py` — the `APIError` exception type;
* `app/clients/google_analytics_client.py`, `google_search_console_client.py`,
  `google_ads_client.py` — the backend HTTP clients: `_extract_errors`,
  `_make_request`, and the per-endpoint fetch methods (request construction);
* `app/agent/tools/…` — the tool layer: the credential gate, the tool bodies,
  and the registry `all_tools`;
* `app/utils/chat_utils.py` — the message visibility filter
  (`convert_message`, `is_public`, `to_public_messages`).

Modelling conventions:

* Calendar dates are carried as their `isoformat()` strings (the clients only
  ever call `.isoformat()` on them).
* JSON values parsed by `response.json()` are modelled by the `Json` inductive
  (null / bool / int / str / list / dict).  Floats are not needed by any
  endpoint body the properties touch.
* The HTTP world behind `httpx` is an oracle `World : HttpReq → HttpOutcome`;
  one call to `_make_request` consults the oracle once.  The `Authorization`
  bearer header the clients attach is not modelled: no verified property
  inspects request headers.
* Python exceptions other than the caught ones are modelled by the `raised`
  constructor of `ToolOutcome` / the `Except.error` side of result types.
-/

set_option autoImplicit false

/-- A JSON value as produced by `response.json()` on the backend replies:
`None`, `bool`, `int`, `str`, `list`, `dict`. -/
inductive Json where
  | null
  | bool (b : Bool)
  | num (n : Int)
  | str (s : String)
  | arr (xs : List Json)
  | obj (kvs : List (String × Json))
deriving Repr, Inhabited

mutual

/-- Python `repr(x)` for parsed-JSON values (`None`/`bool`/`int`/`str`/`list`/`dict`). -/
def pyRepr : Json → String
  | Json.null => "None"
  | Json.bool true => "True"
  | Json.bool false => "False"
  | Json.num n => toString n
  | Json.str s => "\x27" ++ s ++ "\x27"
  | Json.arr xs => "[" ++ pyReprArr xs ++ "]"
  | Json.obj kvs => "\x7b" ++ pyReprObj kvs ++ "\x7d"

/-- Comma-separated reprs of the elements of a Python list. -/
def pyReprArr : List Json → String
  | [] => ""
  | [x] => pyRepr x
  | x :: xs => pyRepr x ++ ", " ++ pyReprArr xs

/-- Comma-separated `key: value` reprs of the entries of a Python dict. -/
def pyReprObj : List (String × Json) → String
  | [] => ""
  | [(k, v)] => "\x27" ++ k ++ "\x27: " ++ pyRepr v
  | (k, v) :: kvs => "\x27" ++ k ++ "\x27: " ++ pyRepr v ++ ", " ++ pyReprObj kvs

end

/-- Python `str(x)` for a parsed-JSON value: a `str` is returned as-is,
anything else renders as its repr (matching CPython on these types). -/
def pyStr : Json → String
  | Json.str s => s
  | j => pyRepr j

/-- Python `str.strip()` (whitespace at both ends removed). -/
def pyStrip (s : String) : String :=
  String.mk (((s.data.dropWhile Char.isWhitespace).reverse.dropWhile Char.isWhitespace).reverse)

/-- Python `str.lower()` (the identifiers the clients lowercase are ASCII). -/
def pyLower (s : String) : String :=
  String.mk (s.data.map Char.toLower)

/-- Python truthiness of a parsed-JSON value (`bool(x)`). -/
def jsonTruthy : Json → Bool
  | Json.null => false
  | Json.bool b => b
  | Json.num n => n != 0
  | Json.str s => !s.isEmpty
  | Json.arr xs => !xs.isEmpty
  | Json.obj kvs => !kvs.isEmpty

mutual

/-- Compact `json.dumps` of a value (`format_response` serialization).  The
`indent=2` pretty-printing and string escaping are not modelled: no verified
property inspects the serialized success payload. -/
def jsonDump : Json → String
  | Json.null => "null"
  | Json.bool true => "true"
  | Json.bool false => "false"
  | Json.num n => toString n
  | Json.str s => "\"" ++ s ++ "\""
  | Json.arr xs => "[" ++ jsonDumpArr xs ++ "]"
  | Json.obj kvs => "\x7b" ++ jsonDumpObj kvs ++ "\x7d"

/-- Comma-separated dumps of the elements of a JSON array. -/
def jsonDumpArr : List Json → String
  | [] => ""
  | [x] => jsonDump x
  | x :: xs => jsonDump x ++ ", " ++ jsonDumpArr xs

/-- Comma-separated `"key": value` dumps of the entries of a JSON object. -/
def jsonDumpObj : List (String × Json) → String
  | [] => ""
  | [(k, v)] => "\"" ++ k ++ "\": " ++ jsonDump v
  | (k, v) :: kvs => "\"" ++ k ++ "\": " ++ jsonDump v ++ ", " ++ jsonDumpObj kvs

end

/-- The `APIError` exception of `app/errors/error.py`: a status code plus the
normalized `errors` list computed by `__init__`. -/
structure APIError where
  status_code : Nat
  errors : List String
deriving Repr, DecidableEq

/-- Shallow embedding of `APIError.__init__(status_code, errors=None, message=None)`:
if `errors` is `None` and a `message` is given, the message becomes a singleton
list; then `errors or ["An unknown API error occurred."]` replaces a missing or
empty list by the fixed default. -/
def APIError.init (status_code : Nat) (errors : Option (List String))
    (message : Option String) : APIError :=
  let errors1 : Option (List String) :=
    match errors, message with
    | none, some m => some [m]
    | e, _ => e
  { status_code := status_code
    errors :=
      match errors1 with
      | none => ["An unknown API error occurred."]
      | some [] => ["An unknown API error occurred."]
      | some l => l }

/-- Shallow embedding of `_extract_errors(payload)` (textually identical in the
three client modules): an `errors` field that is a list keeps the non-blank
stringified elements, an `errors` field that is a string becomes a singleton;
otherwise a truthy `message` field becomes a singleton; otherwise the fixed
default list is returned. -/
def extract_errors (payload : Json) : List String :=
  match payload with
  | Json.obj kvs =>
    match List.lookup "errors" kvs with
    | some (Json.arr xs) =>
        (xs.filter (fun x => !(pyStrip (pyStr x)).isEmpty)).map pyStr
    | some (Json.str s) => [s]
    | _ =>
      match List.lookup "message" kvs with
      | some m => if jsonTruthy m then [pyStr m] else ["An unknown API error occurred."]
      | none => ["An unknown API error occurred."]
  | _ => ["An unknown API error occurred."]

/-- One outbound HTTP request as issued through the `httpx.AsyncClient`:
method, endpoint (relative to the configured base URL) and query parameters
in insertion order. -/
structure HttpReq where
  method : String
  endpoint : String
  params : List (String × String)
deriving Repr, DecidableEq

/-- The body of a non-2xx response: `parsed = some j` models a body whose text
parses as the JSON value `j` (what `e.response.json()` returns), `parsed = none`
models an unparseable body whose raw text is `text` (`e.response.text`). -/
structure ErrBody where
  parsed : Option Json
  text : String

/-- What `_make_request` sees from one `httpx` call: a 2xx response with a JSON
body, a non-2xx response (`httpx.HTTPStatusError`), or a network-level failure
(`httpx.RequestError`: DNS, connection refused, timeout). -/
inductive HttpOutcome where
  | success (body : Json)
  | httpError (status : Nat) (body : ErrBody)
  | netError (msg : String)

/-- The HTTP world behind the clients: what each outbound request comes back as. -/
def World : Type := HttpReq → HttpOutcome

/-- The `try: error_data = e.response.json() except: error_data = {"message": e.response.text}`
step of the `_make_request` error path. -/
def errBodyData (body : ErrBody) : Json :=
  match body.parsed with
  | some j => j
  | none => Json.obj [("message", Json.str body.text)]

/-- Shallow embedding of `_make_request` (textually identical error handling in
the three clients): a 2xx response yields its JSON body; a non-2xx response is
parsed with `_extract_errors` and raised as an `APIError` carrying the response
status; a network failure is raised as `APIError(503, ["Failed to connect to the
service: …"])`. -/
def make_request (world : World) (req : HttpReq) : Except APIError Json :=
  match world req with
  | HttpOutcome.success body => Except.ok body
  | HttpOutcome.httpError status body =>
      Except.error (APIError.init status (some (extract_errors (errBodyData body))) none)
  | HttpOutcome.netError msg =>
      Except.error (APIError.init 503 (some ["Failed to connect to the service: " ++ msg]) none)

/-- A client fetch: the (single-element) trace of requests the method issues
through `_make_request`, paired with the outcome.  Pydantic record validation
(`model_validate`) is applied by the callers to the `data` field of the returned
envelope; it is not needed by any verified property and is modelled as the
identity on the JSON payload. -/
def clientFetch (world : World) (req : HttpReq) : List HttpReq × Except APIError Json :=
  ([req], make_request world req)

namespace GoogleAnalyticsClient

/-- Request of `fetch_overall_data`: endpoint switches on `organic_only`. -/
def overall_request (start_date end_date : String) (organic_only : Bool) : HttpReq :=
  { method := "GET"
    endpoint :=
      if organic_only then "/google-analytics/overall-organic-traffic"
      else "/google-analytics/overall"
    params := [("start_date", start_date), ("end_date", end_date)] }

/-- Request of `fetch_daily_data`: endpoint switches on `organic_only`. -/
def daily_request (start_date end_date : String) (organic_only : Bool) : HttpReq :=
  { method := "GET"
    endpoint :=
      if organic_only then "/google-analytics/daily-organic-traffic"
      else "/google-analytics/daily"
    params := [("start_date", start_date), ("end_date", end_date)] }

/-- Request of `fetch_countries_data`: dates, `order_by`, `limit`, and `search`
only when the argument is truthy (`if search:`). -/
def countries_request (start_date end_date order_by : String) (limit : Int)
    (search : Option String) : HttpReq :=
  { method := "GET"
    endpoint := "/google-analytics/countries"
    params := [("start_date", start_date), ("end_date", end_date),
               ("order_by", order_by), ("limit", toString limit)] ++
      (match search with
       | some s => if s.isEmpty then [] else [("search", s)]
       | none => []) }

/-- Request of `fetch_country_detail_data`: the country is lowercased
(`country.lower()`) before being embedded in the path. -/
def country_detail_request (country start_date end_date : String) : HttpReq :=
  { method := "GET"
    endpoint := "/google-analytics/countries/" ++ pyLower country
    params := [("start_date", start_date), ("end_date", end_date)] }

/-- Request of `fetch_pages_data`: dates, `order_by`, `limit`, and `search`
only when the argument is truthy. -/
def pages_request (start_date end_date order_by : String) (limit : Int)
    (search : Option String) : HttpReq :=
  { method := "GET"
    endpoint := "/google-analytics/pages"
    params := [("start_date", start_date), ("end_date", end_date),
               ("order_by", order_by), ("limit", toString limit)] ++
      (match search with
       | some s => if s.isEmpty then [] else [("search", s)]
       | none => []) }

/-- Request of `fetch_page_detail_data`: the page path is embedded verbatim. -/
def page_detail_request (page_path start_date end_date : String) : HttpReq :=
  { method := "GET"
    endpoint := "/google-analytics/pages/" ++ page_path
    params := [("start_date", start_date), ("end_date", end_date)] }

/-- `fetch_overall_data`: one GET through `_make_request`. -/
def fetch_overall_data (world : World) (start_date end_date : String)
    (organic_only : Bool) : List HttpReq × Except APIError Json :=
  clientFetch world (overall_request start_date end_date organic_only)

/-- `fetch_daily_data`: one GET through `_make_request`. -/
def fetch_daily_data (world : World) (start_date end_date : String)
    (organic_only : Bool) : List HttpReq × Except APIError Json :=
  clientFetch world (daily_request start_date end_date organic_only)

/-- `fetch_countries_data`: one GET through `_make_request`. -/
def fetch_countries_data (world : World) (start_date end_date order_by : String)
    (limit : Int) (search : Option String) : List HttpReq × Except APIError Json :=
  clientFetch world (countries_request start_date end_date order_by limit search)

/-- `fetch_country_detail_data`: one GET through `_make_request`. -/
def fetch_country_detail_data (world : World) (country start_date end_date : String) :
    List HttpReq × Except APIError Json :=
  clientFetch world (country_detail_request country start_date end_date)

/-- `fetch_pages_data`: one GET through `_make_request`. -/
def fetch_pages_data (world : World) (start_date end_date order_by : String)
    (limit : Int) (search : Option String) : List HttpReq × Except APIError Json :=
  clientFetch world (pages_request start_date end_date order_by limit search)

/-- `fetch_page_detail_data`: one GET through `_make_request`. -/
def fetch_page_detail_data (world : World) (page_path start_date end_date : String) :
    List HttpReq × Except APIError Json :=
  clientFetch world (page_detail_request page_path start_date end_date)

end GoogleAnalyticsClient

namespace GoogleSearchConsoleClient

/-- Request of `fetch_overall_data`. -/
def overall_request (start_date end_date : String) : HttpReq :=
  { method := "GET"
    endpoint := "/google-search-console/overall"
    params := [("start_date", start_date), ("end_date", end_date)] }

/-- Request of `fetch_daily_data`. -/
def daily_request (start_date end_date : String) : HttpReq :=
  { method := "GET"
    endpoint := "/google-search-console/daily"
    params := [("start_date", start_date), ("end_date", end_date)] }

/-- Request of `fetch_keywords_data`: dates, `limit` (`int(limit)`), and
`search` only when the argument is truthy. -/
def keywords_request (start_date end_date : String) (limit : Int)
    (search : Option String) : HttpReq :=
  { method := "GET"
    endpoint := "/google-search-console/keywords"
    params := [("start_date", start_date), ("end_date", end_date),
               ("limit", toString limit)] ++
      (match search with
       | some s => if s.isEmpty then [] else [("search", s)]
       | none => []) }

/-- Request of `fetch_keyword_detail_data`: the keyword is embedded verbatim. -/
def keyword_detail_request (keyword start_date end_date : String) : HttpReq :=
  { method := "GET"
    endpoint := "/google-search-console/keywords/" ++ keyword
    params := [("start_date", start_date), ("end_date", end_date)] }

/-- Request of `fetch_countries_data`: dates, `limit`, and `search` only when
the argument is truthy. -/
def countries_request (start_date end_date : String) (limit : Int)
    (search : Option String) : HttpReq :=
  { method := "GET"
    endpoint := "/google-search-console/countries"
    params := [("start_date", start_date), ("end_date", end_date),
               ("limit", toString limit)] ++
      (match search with
       | some s => if s.isEmpty then [] else [("search", s)]
       | none => []) }

/-- Request of `fetch_country_detail_data`: the country is embedded verbatim. -/
def country_detail_request (country start_date end_date : String) : HttpReq :=
  { method := "GET"
    endpoint := "/google-search-console/countries/" ++ country
    params := [("start_date", start_date), ("end_date", end_date)] }

/-- `fetch_overall_data`: one GET through `_make_request`. -/
def fetch_overall_data (world : World) (start_date end_date : String) :
    List HttpReq × Except APIError Json :=
  clientFetch world (overall_request start_date end_date)

/-- `fetch_daily_data`: one GET through `_make_request`. -/
def fetch_daily_data (world : World) (start_date end_date : String) :
    List HttpReq × Except APIError Json :=
  clientFetch world (daily_request start_date end_date)

/-- `fetch_keywords_data`: one GET through `_make_request`. -/
def fetch_keywords_data (world : World) (start_date end_date : String)
    (limit : Int) (search : Option String) : List HttpReq × Except APIError Json :=
  clientFetch world (keywords_request start_date end_date limit search)

/-- `fetch_keyword_detail_data`: one GET through `_make_request`. -/
def fetch_keyword_detail_data (world : World) (keyword start_date end_date : String) :
    List HttpReq × Except APIError Json :=
  clientFetch world (keyword_detail_request keyword start_date end_date)

/-- `fetch_countries_data`: one GET through `_make_request`. -/
def fetch_countries_data (world : World) (start_date end_date : String)
    (limit : Int) (search : Option String) : List HttpReq × Except APIError Json :=
  clientFetch world (countries_request start_date end_date limit search)

/-- `fetch_country_detail_data`: one GET through `_make_request`. -/
def fetch_country_detail_data (world : World) (country start_date end_date : String) :
    List HttpReq × Except APIError Json :=
  clientFetch world (country_detail_request country start_date end_date)

end GoogleSearchConsoleClient

namespace GoogleAdsClient

/-- Request of `fetch_overall_data`. -/
def overall_request (start_date end_date : String) : HttpReq :=
  { method := "GET"
    endpoint := "/google-ads/overall"
    params := [("start_date", start_date), ("end_date", end_date)] }

/-- Request of `fetch_daily_data`. -/
def daily_request (start_date end_date : String) : HttpReq :=
  { method := "GET"
    endpoint := "/google-ads/daily"
    params := [("start_date", start_date), ("end_date", end_date)] }

/-- Request of `fetch_campaigns_data`. -/
def campaigns_request (start_date end_date : String) : HttpReq :=
  { method := "GET"
    endpoint := "/google-ads/campaigns"
    params := [("start_date", start_date), ("end_date", end_date)] }

/-- Request of `fetch_campaign_detail_data`: the campaign id is embedded verbatim. -/
def campaign_detail_request (campaign_id start_date end_date : String) : HttpReq :=
  { method := "GET"
    endpoint := "/google-ads/campaigns/" ++ campaign_id
    params := [("start_date", start_date), ("end_date", end_date)] }

/-- `fetch_overall_data`: one GET through `_make_request`. -/
def fetch_overall_data (world : World) (start_date end_date : String) :
    List HttpReq × Except APIError Json :=
  clientFetch world (overall_request start_date end_date)

/-- `fetch_daily_data`: one GET through `_make_request`. -/
def fetch_daily_data (world : World) (start_date end_date : String) :
    List HttpReq × Except APIError Json :=
  clientFetch world (daily_request start_date end_date)

/-- `fetch_campaigns_data`: one GET through `_make_request`. -/
def fetch_campaigns_data (world : World) (start_date end_date : String) :
    List HttpReq × Except APIError Json :=
  clientFetch world (campaigns_request start_date end_date)

/-- `fetch_campaign_detail_data`: one GET through `_make_request`. -/
def fetch_campaign_detail_data (world : World) (campaign_id start_date end_date : String) :
    List HttpReq × Except APIError Json :=
  clientFetch world (campaign_detail_request campaign_id start_date end_date)

end GoogleAdsClient

/-- The validated arguments a tool handler can receive, bundling the fields of
the pydantic input schemas (`TrafficInput`, `ByDimensionInput`, detail inputs,
and their GSC/Ads counterparts).  Each tool reads only its own schema's
fields. -/
structure ToolArgs where
  start_date : String
  end_date : String
  organic_only : Bool
  limit : Int
  search : Option String
  country : String
  page_path : String
  keyword : String
  campaign_id : String

/-- The pydantic schema defaults shared by the ranking inputs
(`ByDimensionInput` / `GscByDimensionInput`): `limit = 10`, `search = None`,
`organic_only = False`; detail identifiers are required, so their defaults
are never read. -/
def ToolArgs.ofRequired (start_date end_date : String) : ToolArgs :=
  { start_date := start_date
    end_date := end_date
    organic_only := false
    limit := 10
    search := none
    country := ""
    page_path := ""
    keyword := ""
    campaign_id := "" }

/-- The per-request `RunnableConfig`: the tools read only
`config.get("configurable", {}).get("auth_token")`, which is `None` when the
bearer credential was not supplied. -/
structure RunnableConfig where
  auth_token : Option String

/-- Ambient state a tool body consults besides its arguments and config: the
HTTP world behind the backend base URL, and the current instant
(`datetime.now().isoformat()`). -/
structure ToolEnv where
  world : World
  now : String

/-- What a tool invocation does at its boundary: return a result string to the
orchestration layer, or let a Python exception escape. -/
inductive ToolOutcome where
  | ok (text : String)
  | raised (exc : String)
deriving Repr, DecidableEq

/-- The literal text every data tool returns when the credential is absent. -/
def authErrMsg : String := "Error: Authentication token was not provided to the tool."

/-- Python truthiness of the extracted token (`if not token:` also fires on an
empty string). -/
def tokenTruthy : Option String → Bool
  | none => false
  | some t => !t.isEmpty

/-- `format_response(data)`: serializes the fetched payload to a JSON string
for the model. -/
def format_response (data : Json) : String := jsonDump data

/-- The `response_data["data"]` subscript every tool performs on the fetched
envelope: a missing `data` key or a non-dict envelope raises (KeyError /
TypeError), which the tool's `except APIError` clause does not catch. -/
def envelope_data (j : Json) : Except String Json :=
  match j with
  | Json.obj kvs =>
    match List.lookup "data" kvs with
    | some d => Except.ok d
    | none => Except.error "KeyError: data"
  | _ => Except.error "TypeError: response is not subscriptable"

/-- The body shared by the sixteen data tools (they are textually identical up
to the fetch they perform and their `except APIError` message): read the token
from the config, return the fixed error text when it is falsy, otherwise run
the client fetch, format a success, and hand an `APIError` to the tool's own
except-branch. -/
def runDataTool (token : Option String)
    (fetched : List HttpReq × Except APIError Json)
    (onApiError : APIError → ToolOutcome) : ToolOutcome :=
  match tokenTruthy token with
  | false => ToolOutcome.ok authErrMsg
  | true =>
    match fetched.2 with
    | Except.ok j =>
      match envelope_data j with
      | Except.ok d => ToolOutcome.ok (format_response d)
      | Except.error exc => ToolOutcome.raised exc
    | Except.error e => onApiError e

/-- The `except APIError` branches of the google_analytics tool module
interpolate `e.message`, but `APIError` defines no `message` attribute, so
reaching them raises `AttributeError` past the tool boundary. -/
def gaMessageAttributeError (_e : APIError) : ToolOutcome :=
  ToolOutcome.raised "AttributeError: \x27APIError\x27 object has no attribute \x27message\x27"

/-- The `except APIError` branches of the GSC and Ads tool modules return
`f"<prefix>: {e.errors}"`, rendering the list with Python repr. -/
def errorsReply (pre : String) (e : APIError) : ToolOutcome :=
  ToolOutcome.ok (pre ++ pyRepr (Json.arr (e.errors.map Json.str)))

/-- `get_current_datetime`: the time utility, no credential check. -/
def get_current_datetime (_a : ToolArgs) (_config : RunnableConfig) (env : ToolEnv) :
    ToolOutcome :=
  ToolOutcome.ok env.now

/-- `get_google_analytics_overall_traffic` tool body. -/
def get_google_analytics_overall_traffic (a : ToolArgs) (config : RunnableConfig)
    (env : ToolEnv) : ToolOutcome :=
  runDataTool config.auth_token
    (GoogleAnalyticsClient.fetch_overall_data env.world a.start_date a.end_date a.organic_only)
    gaMessageAttributeError

/-- `get_google_analytics_daily_traffic` tool body. -/
def get_google_analytics_daily_traffic (a : ToolArgs) (config : RunnableConfig)
    (env : ToolEnv) : ToolOutcome :=
  runDataTool config.auth_token
    (GoogleAnalyticsClient.fetch_daily_data env.world a.start_date a.end_date a.organic_only)
    gaMessageAttributeError

/-- `get_google_analytics_traffic_by_countries` tool body: `order_by` keeps its
client-side default `"desc"`. -/
def get_google_analytics_traffic_by_countries (a : ToolArgs) (config : RunnableConfig)
    (env : ToolEnv) : ToolOutcome :=
  runDataTool config.auth_token
    (GoogleAnalyticsClient.fetch_countries_data env.world a.start_date a.end_date
      "desc" a.limit a.search)
    gaMessageAttributeError

/-- `get_google_analytics_daily_traffic_for_country` tool body. -/
def get_google_analytics_daily_traffic_for_country (a : ToolArgs) (config : RunnableConfig)
    (env : ToolEnv) : ToolOutcome :=
  runDataTool config.auth_token
    (GoogleAnalyticsClient.fetch_country_detail_data env.world a.country a.start_date a.end_date)
    gaMessageAttributeError

/-- `get_google_analytics_traffic_by_pages` tool body: `order_by` keeps its
client-side default `"desc"`. -/
def get_google_analytics_traffic_by_pages (a : ToolArgs) (config : RunnableConfig)
    (env : ToolEnv) : ToolOutcome :=
  runDataTool config.auth_token
    (GoogleAnalyticsClient.fetch_pages_data env.world a.start_date a.end_date
      "desc" a.limit a.search)
    gaMessageAttributeError

/-- `get_google_analytics_daily_traffic_for_page` tool body. -/
def get_google_analytics_daily_traffic_for_page (a : ToolArgs) (config : RunnableConfig)
    (env : ToolEnv) : ToolOutcome :=
  runDataTool config.auth_token
    (GoogleAnalyticsClient.fetch_page_detail_data env.world a.page_path a.start_date a.end_date)
    gaMessageAttributeError

/-- `get_search_console_overall` tool body. -/
def get_search_console_overall (a : ToolArgs) (config : RunnableConfig)
    (env : ToolEnv) : ToolOutcome :=
  runDataTool config.auth_token
    (GoogleSearchConsoleClient.fetch_overall_data env.world a.start_date a.end_date)
    (errorsReply "Error fetching Search Console overall: ")

/-- `get_search_console_daily` tool body. -/
def get_search_console_daily (a : ToolArgs) (config : RunnableConfig)
    (env : ToolEnv) : ToolOutcome :=
  runDataTool config.auth_token
    (GoogleSearchConsoleClient.fetch_daily_data env.world a.start_date a.end_date)
    (errorsReply "Error fetching Search Console daily: ")

/-- `get_search_console_keywords` tool body. -/
def get_search_console_keywords (a : ToolArgs) (config : RunnableConfig)
    (env : ToolEnv) : ToolOutcome :=
  runDataTool config.auth_token
    (GoogleSearchConsoleClient.fetch_keywords_data env.world a.start_date a.end_date
      a.limit a.search)
    (errorsReply "Error fetching Search Console keywords: ")

/-- `get_search_console_daily_for_keyword` tool body. -/
def get_search_console_daily_for_keyword (a : ToolArgs) (config : RunnableConfig)
    (env : ToolEnv) : ToolOutcome :=
  runDataTool config.auth_token
    (GoogleSearchConsoleClient.fetch_keyword_detail_data env.world a.keyword
      a.start_date a.end_date)
    (errorsReply ("Error fetching Search Console for keyword \x27" ++ a.keyword ++ "\x27: "))

/-- `get_search_console_countries` tool body. -/
def get_search_console_countries (a : ToolArgs) (config : RunnableConfig)
    (env : ToolEnv) : ToolOutcome :=
  runDataTool config.auth_token
    (GoogleSearchConsoleClient.fetch_countries_data env.world a.start_date a.end_date
      a.limit a.search)
    (errorsReply "Error fetching Search Console countries: ")

/-- `get_search_console_daily_for_country` tool body. -/
def get_search_console_daily_for_country (a : ToolArgs) (config : RunnableConfig)
    (env : ToolEnv) : ToolOutcome :=
  runDataTool config.auth_token
    (GoogleSearchConsoleClient.fetch_country_detail_data env.world a.country
      a.start_date a.end_date)
    (errorsReply ("Error fetching Search Console for country \x27" ++ a.country ++ "\x27: "))

/-- `get_google_ads_overall` tool body. -/
def get_google_ads_overall (a : ToolArgs) (config : RunnableConfig)
    (env : ToolEnv) : ToolOutcome :=
  runDataTool config.auth_token
    (GoogleAdsClient.fetch_overall_data env.world a.start_date a.end_date)
    (errorsReply "Error fetching Google Ads overall: ")

/-- `get_google_ads_daily` tool body. -/
def get_google_ads_daily (a : ToolArgs) (config : RunnableConfig)
    (env : ToolEnv) : ToolOutcome :=
  runDataTool config.auth_token
    (GoogleAdsClient.fetch_daily_data env.world a.start_date a.end_date)
    (errorsReply "Error fetching Google Ads daily: ")

/-- `get_google_ads_campaigns` tool body. -/
def get_google_ads_campaigns (a : ToolArgs) (config : RunnableConfig)
    (env : ToolEnv) : ToolOutcome :=
  runDataTool config.auth_token
    (GoogleAdsClient.fetch_campaigns_data env.world a.start_date a.end_date)
    (errorsReply "Error fetching Google Ads campaigns: ")

/-- `get_google_ads_daily_for_campaign` tool body. -/
def get_google_ads_daily_for_campaign (a : ToolArgs) (config : RunnableConfig)
    (env : ToolEnv) : ToolOutcome :=
  runDataTool config.auth_token
    (GoogleAdsClient.fetch_campaign_detail_data env.world a.campaign_id
      a.start_date a.end_date)
    (errorsReply ("Error fetching Google Ads for campaign \x27" ++ a.campaign_id ++ "\x27: "))

/-- One entry of the tool registry: the tool's registered name and its handler. -/
structure RegisteredTool where
  name : String
  run : ToolArgs → RunnableConfig → ToolEnv → ToolOutcome

/-- `utility_tools` from `app/agent/tools/__init__.py`. -/
def utility_tools : List RegisteredTool :=
  [⟨"get_current_datetime", get_current_datetime⟩]

/-- `google_analytics_tools` from `app/agent/tools/__init__.py`, in source order. -/
def google_analytics_tools : List RegisteredTool :=
  [⟨"get_google_analytics_overall_traffic", get_google_analytics_overall_traffic⟩,
   ⟨"get_google_analytics_daily_traffic", get_google_analytics_daily_traffic⟩,
   ⟨"get_google_analytics_traffic_by_countries", get_google_analytics_traffic_by_countries⟩,
   ⟨"get_google_analytics_daily_traffic_for_country", get_google_analytics_daily_traffic_for_country⟩,
   ⟨"get_google_analytics_traffic_by_pages", get_google_analytics_traffic_by_pages⟩,
   ⟨"get_google_analytics_daily_traffic_for_page", get_google_analytics_daily_traffic_for_page⟩]

/-- `google_search_console_tools` from `app/agent/tools/__init__.py`, in source order. -/
def google_search_console_tools : List RegisteredTool :=
  [⟨"get_search_console_overall", get_search_console_overall⟩,
   ⟨"get_search_console_daily", get_search_console_daily⟩,
   ⟨"get_search_console_countries", get_search_console_countries⟩,
   ⟨"get_search_console_daily_for_country", get_search_console_daily_for_country⟩,
   ⟨"get_search_console_keywords", get_search_console_keywords⟩,
   ⟨"get_search_console_daily_for_keyword", get_search_console_daily_for_keyword⟩]

/-- `google_ads_tools` from `app/agent/tools/__init__.py`, in source order. -/
def google_ads_tools : List RegisteredTool :=
  [⟨"get_google_ads_overall", get_google_ads_overall⟩,
   ⟨"get_google_ads_daily", get_google_ads_daily⟩,
   ⟨"get_google_ads_campaigns", get_google_ads_campaigns⟩,
   ⟨"get_google_ads_daily_for_campaign", get_google_ads_daily_for_campaign⟩]

/-- `all_tools = utility_tools + google_analytics_tools + google_search_console_tools + google_ads_tools`. -/
def all_tools : List RegisteredTool :=
  utility_tools ++ google_analytics_tools ++ google_search_console_tools ++ google_ads_tools

/-- One `tool_calls` entry on an `AIMessage`: call id, tool name, arguments. -/
structure ToolCallData where
  id : String
  name : String
  args : List (String × String)
deriving Repr, DecidableEq

/-- A value the visibility filter can be handed, with Python's dynamic typing
made explicit: the four langchain message classes, plus the plain
`role`/`content` dict that `to_public_messages` itself emits (a dict is not an
instance of any message class). -/
inductive PyMessage where
  | human (content : String)
  | ai (content : String) (tool_calls : List ToolCallData)
  | system (content : String)
  | tool (content : String) (tool_call_id : String)
  | dictObj (role : String) (content : String)
deriving Repr, DecidableEq

/-- A public `{"role": …, "content": …}` record returned to the caller. -/
structure PublicTurn where
  role : String
  content : String
deriving Repr, DecidableEq

/-- Shallow embedding of `convert_message`: `HumanMessage → user`,
`AIMessage → assistant`, `SystemMessage → system`, anything else raises
`ValueError`. -/
def convert_message : PyMessage → Except String PublicTurn
  | PyMessage.human c => Except.ok ⟨"user", c⟩
  | PyMessage.ai c _ => Except.ok ⟨"assistant", c⟩
  | PyMessage.system c => Except.ok ⟨"system", c⟩
  | _ => Except.error "ValueError: Unsupported message type"

/-- Shallow embedding of `is_public`: drop every `ToolMessage`, drop an
`AIMessage` whose content is falsy and whose `tool_calls` list is truthy, then
keep exactly the instances of `HumanMessage`/`AIMessage`/`SystemMessage`. -/
def is_public : PyMessage → Bool
  | PyMessage.tool _ _ => false
  | PyMessage.ai content tool_calls =>
      if content.isEmpty && !tool_calls.isEmpty then false else true
  | PyMessage.human _ => true
  | PyMessage.system _ => true
  | PyMessage.dictObj _ _ => false

/-- Shallow embedding of `to_public_messages`: the comprehension
`[convert_message(m) for m in messages if is_public(m)]`, with a raised
`ValueError` carried on the error side (on message inputs it never fires,
because every message `is_public` keeps is convertible). -/
def to_public_messages : List PyMessage → Except String (List PublicTurn)
  | [] => Except.ok []
  | m :: ms =>
    if is_public m then
      match convert_message m with
      | Except.error e => Except.error e
      | Except.ok t =>
        match to_public_messages ms with
        | Except.ok rest => Except.ok (t :: rest)
        | Except.error e => Except.error e
    else to_public_messages ms

/-- Re-injection of the filter's own output into its input domain: each emitted
record is a plain Python dict. -/
def turnAsDict (t : PublicTurn) : PyMessage :=
  PyMessage.dictObj t.role t.content

/-- Concrete arguments used by the witnesses below. -/
def sampleArgs : ToolArgs := ToolArgs.ofRequired "2025-01-01" "2025-01-31"

/-- Concrete tool environment used by the witnesses below. -/
def sampleEnv : ToolEnv :=
  { world := fun _ => HttpOutcome.netError "no backend", now := "2025-10-12T00:00:00" }

/-- The normalized `errors` attribute of a constructed `APIError` is never
empty, whatever arguments `__init__` received. -/
theorem APIError.init_errors_ne_nil (status_code : Nat)
    (errors : Option (List String)) (message : Option String) :
    (APIError.init status_code errors message).errors ≠ [] := by
  rcases errors with _ | ⟨_ | ⟨x, xs⟩⟩ <;> rcases message with _ | m <;>
    simp [APIError.init]

/-- The constructed `APIError` keeps the status code it was given. -/
theorem APIError.init_status (status_code : Nat)
    (errors : Option (List String)) (message : Option String) :
    (APIError.init status_code errors message).status_code = status_code := by
  rcases errors with _ | ⟨_ | ⟨x, xs⟩⟩ <;> rcases message with _ | m <;>
    simp [APIError.init]

/-- A message converted successfully by `convert_message` carries one of the
three public roles. -/
theorem convert_message_role (m : PyMessage) (t : PublicTurn)
    (hm : convert_message m = Except.ok t) :
    t.role = "user" ∨ t.role = "assistant" ∨ t.role = "system" := by
  cases m <;> simp [convert_message] at hm <;> simp [← hm]

/-- C1 (amended): every message in the output of the visibility filter has role
user, assistant, or system (each output record consists of a role and a content
only, so none carries a ToolCalls list, and none has the tool-result role).
The claim's further conjunct that no output message has role system fails on
the code: `is_public` keeps `SystemMessage`s (see the counterexample). -/
theorem C1_public_roles (h : List PyMessage) (l : List PublicTurn)
    (hl : to_public_messages h = Except.ok l) :
    ∀ t ∈ l, t.role = "user" ∨ t.role = "assistant" ∨ t.role = "system" := by
  induction h generalizing l with
  | nil =>
    simp [to_public_messages] at hl
    subst hl
    intro t ht
    simp at ht
  | cons m ms ih =>
    intro t ht
    rw [to_public_messages] at hl
    by_cases hp : is_public m
    · rw [if_pos hp] at hl
      cases hm : convert_message m with
      | error e => rw [hm] at hl; cases hl
      | ok t0 =>
        rw [hm] at hl
        cases hr : to_public_messages ms with
        | error e => rw [hr] at hl; cases hl
        | ok rest =>
          rw [hr] at hl
          injection hl with hl'
          subst hl'
          rcases List.mem_cons.mp ht with rfl | hmem
          · exact convert_message_role m t hm
          · exact ih rest hr t hmem
    · rw [if_neg hp] at hl
      exact ih l hl t ht

/-- C1 counterexample: a history containing a `SystemMessage` is passed through
by `to_public_messages`, so the output does contain a message with role
system, contradicting the claim as stated. -/
theorem C1_counterexample :
    to_public_messages [PyMessage.system "orchestration prompt"]
      = Except.ok [{ role := "system", content := "orchestration prompt" }]
  ∧ ("system" : String) ≠ "user" ∧ ("system" : String) ≠ "assistant" := by
  exact ⟨rfl, by decide, by decide⟩

/-- C1 witness: the amended theorem applied to the singleton history of one
user message. -/
theorem C1_witness :
    ({ role := "user", content := "hello" } : PublicTurn).role = "user"
  ∨ ({ role := "user", content := "hello" } : PublicTurn).role = "assistant"
  ∨ ({ role := "user", content := "hello" } : PublicTurn).role = "system" :=
  C1_public_roles [PyMessage.human "hello"] [{ role := "user", content := "hello" }] rfl
    { role := "user", content := "hello" } (List.Mem.head _)

/-- C2: every registered tool other than `get_current_datetime`, invoked with
any validated arguments but no bearer credential in the per-request config,
returns (never raises) the literal text
"Error: Authentication token was not provided to the tool.". -/
theorem C2_missing_credential (t : RegisteredTool) (ht : t ∈ all_tools)
    (hname : t.name ≠ "get_current_datetime") (a : ToolArgs) (env : ToolEnv) :
    t.run a ⟨none⟩ env = ToolOutcome.ok authErrMsg := by
  simp only [all_tools, utility_tools, google_analytics_tools,
    google_search_console_tools, google_ads_tools, List.append_assoc,
    List.mem_append, List.mem_cons, List.not_mem_nil, or_false] at ht
  rcases ht with rfl | (rfl | rfl | rfl | rfl | rfl | rfl) |
    (rfl | rfl | rfl | rfl | rfl | rfl) | (rfl | rfl | rfl | rfl)
  · exact absurd rfl hname
  all_goals rfl

/-- C2 witness: the GSC overall tool with no credential returns the literal
error text. -/
theorem C2_missing_credential_witness :
    (RegisteredTool.mk "get_search_console_overall" get_search_console_overall).run
      sampleArgs ⟨none⟩ sampleEnv = ToolOutcome.ok authErrMsg := by
  apply C2_missing_credential
  · simp [all_tools, utility_tools, google_analytics_tools,
      google_search_console_tools, google_ads_tools]
  · decide

/-- C3 (amended): on a backend non-2xx failure, body `{"errors": "oauth
required"}` yields exactly ["oauth required"]; `{"errors": ["a","b"]}` yields
exactly ["a","b"]; a truthy `{"message": m}` yields exactly [m]; an unparseable
body yields its raw text as a singleton when that text is non-empty, and
["An unknown API error occurred."] only when the text is empty; in every case
the raised Error's list is non-empty and carries the original status code.
(The claim's statement that every unparseable body yields the fixed unknown-error
text fails on the code: see the counterexample.) -/
theorem C3_error_normalization (s : Nat) (req : HttpReq) (m txt : String) (body : ErrBody) :
    (make_request
        (fun _ => HttpOutcome.httpError s ⟨some (Json.obj [("errors", Json.str "oauth required")]), txt⟩) req
      = Except.error ⟨s, ["oauth required"]⟩)
  ∧ (make_request
        (fun _ => HttpOutcome.httpError s ⟨some (Json.obj [("errors", Json.arr [Json.str "a", Json.str "b"])]), txt⟩) req
      = Except.error ⟨s, ["a", "b"]⟩)
  ∧ (m ≠ "" → make_request
        (fun _ => HttpOutcome.httpError s ⟨some (Json.obj [("message", Json.str m)]), txt⟩) req
      = Except.error ⟨s, [m]⟩)
  ∧ (txt ≠ "" → make_request (fun _ => HttpOutcome.httpError s ⟨none, txt⟩) req
      = Except.error ⟨s, [txt]⟩)
  ∧ (make_request (fun _ => HttpOutcome.httpError s ⟨none, ""⟩) req
      = Except.error ⟨s, ["An unknown API error occurred."]⟩)
  ∧ (make_request (fun _ => HttpOutcome.httpError s body) req
      = Except.error (APIError.init s (some (extract_errors (errBodyData body))) none))
  ∧ (APIError.init s (some (extract_errors (errBodyData body))) none).status_code = s
  ∧ (APIError.init s (some (extract_errors (errBodyData body))) none).errors ≠ [] := by
  refine ⟨rfl, rfl, ?_, ?_, rfl, rfl, APIError.init_status s _ none,
    APIError.init_errors_ne_nil s _ none⟩
  · intro hm
    have hm' : m.isEmpty = false := by
      rcases hb : m.isEmpty with _ | _
      · rfl
      · exact absurd ((String.isEmpty_iff m).mp hb) hm
    show Except.error (APIError.init s
        (some (if (!m.isEmpty) = true then [m] else ["An unknown API error occurred."])) none)
      = Except.error ⟨s, [m]⟩
    rw [hm']
    rfl
  · intro ht
    have ht' : txt.isEmpty = false := by
      rcases hb : txt.isEmpty with _ | _
      · rfl
      · exact absurd ((String.isEmpty_iff txt).mp hb) ht
    show Except.error (APIError.init s
        (some (if (!txt.isEmpty) = true then [txt] else ["An unknown API error occurred."])) none)
      = Except.error ⟨s, [txt]⟩
    rw [ht']
    rfl

/-- C3 counterexample: a non-JSON failure body with non-empty text ("oops") is
surfaced verbatim as ["oops"], not as ["An unknown API error occurred."]. -/
theorem C3_counterexample :
    make_request (fun _ => HttpOutcome.httpError 500 ⟨none, "oops"⟩)
      { method := "GET", endpoint := "/google-analytics/overall",
        params := [("start_date", "2025-01-01"), ("end_date", "2025-01-31")] }
      = Except.error ⟨500, ["oops"]⟩
  ∧ (["oops"] : List String) ≠ ["An unknown API error occurred."] := by
  exact ⟨rfl, by decide⟩

/-- C3 witness: the amended theorem applied at status 404, message "X" and raw
text "oops". -/
theorem C3_witness :
    make_request
      (fun _ => HttpOutcome.httpError 404 ⟨some (Json.obj [("message", Json.str "X")]), "oops"⟩)
      { method := "GET", endpoint := "/google-search-console/overall", params := [] }
      = Except.error ⟨404, ["X"]⟩ :=
  (C3_error_normalization 404
      { method := "GET", endpoint := "/google-search-console/overall", params := [] }
      "X" "oops" ⟨none, "oops"⟩).2.2.1 (by decide)

/-- C4 (amended): a pages-ranking fetch with start_date=2025-01-01,
end_date=2025-01-31, limit=5, search="BMW" issues exactly one outbound GET to
the pages endpoint, whose query parameters are exactly start_date, end_date,
limit, search together with the client's always-sent order_by=desc.  (The
claim's "no other query parameters present" fails on the code because of
order_by: see the counterexample.) -/
theorem C4_request_shape (world : World) :
    (GoogleAnalyticsClient.fetch_pages_data world "2025-01-01" "2025-01-31" "desc" 5 (some "BMW")).1
      = [{ method := "GET", endpoint := "/google-analytics/pages",
           params := [("start_date", "2025-01-01"), ("end_date", "2025-01-31"),
                      ("order_by", "desc"), ("limit", "5"), ("search", "BMW")] }] := rfl

/-- C4 counterexample: the outbound pages request carries the query parameter
order_by=desc, which is outside the claimed parameter set
start_date/end_date/limit/search. -/
theorem C4_counterexample :
    ("order_by", "desc")
      ∈ (GoogleAnalyticsClient.pages_request "2025-01-01" "2025-01-31" "desc" 5 (some "BMW")).params
  ∧ "order_by" ∉ (["start_date", "end_date", "limit", "search"] : List String) := by
  decide

/-- C5 (amended): the message-selection stage of the visibility filter is
idempotent — filtering a history with `is_public` twice equals filtering once,
and `to_public_messages` of the `is_public`-filtered history equals
`to_public_messages` of the original.  The composite filter itself is not
idempotent: it emits plain role/content dicts, which `is_public` rejects, so
applying `to_public_messages` to its own output yields [] (see the
counterexample). -/
theorem C5_filter_idempotence (h : List PyMessage) :
    (h.filter is_public).filter is_public = h.filter is_public
  ∧ to_public_messages (h.filter is_public) = to_public_messages h := by
  constructor
  · simp [List.filter_filter]
  · induction h with
    | nil => rfl
    | cons m ms ih =>
      by_cases hp : is_public m
      · simp only [List.filter_cons, hp, if_true, to_public_messages, ih]
      · simp only [List.filter_cons, hp, if_false, to_public_messages, ih,
          Bool.false_eq_true]

/-- C5 counterexample: `filter(filter(history)) ≠ filter(history)` for the
one-message history of a user turn — the second application receives dicts,
none of which is an instance of a message class, and returns []. -/
theorem C5_counterexample :
    to_public_messages [PyMessage.human "hi"] = Except.ok [{ role := "user", content := "hi" }]
  ∧ to_public_messages (List.map turnAsDict [({ role := "user", content := "hi" } : PublicTurn)])
      = Except.ok []
  ∧ (Except.ok ([] : List PublicTurn) : Except String (List PublicTurn))
      ≠ Except.ok [{ role := "user", content := "hi" }] := by
  refine ⟨rfl, rfl, ?_⟩
  simp

/-- C6 (amended): the keyword, campaign-id, page-path and Search-Console
country identifiers are embedded verbatim in the path segment of the single
outbound detail request; the Google-Analytics country-detail fetch instead
lowercases the country before embedding it.  (The claim's "no transformation
such as case folding" fails on the GA country fetch: see the counterexample.) -/
theorem C6_detail_paths (idv start_date end_date : String) :
    (GoogleSearchConsoleClient.keyword_detail_request idv start_date end_date).endpoint
      = "/google-search-console/keywords/" ++ idv
  ∧ (GoogleSearchConsoleClient.country_detail_request idv start_date end_date).endpoint
      = "/google-search-console/countries/" ++ idv
  ∧ (GoogleAdsClient.campaign_detail_request idv start_date end_date).endpoint
      = "/google-ads/campaigns/" ++ idv
  ∧ (GoogleAnalyticsClient.page_detail_request idv start_date end_date).endpoint
      = "/google-analytics/pages/" ++ idv
  ∧ (GoogleAnalyticsClient.country_detail_request idv start_date end_date).endpoint
      = "/google-analytics/countries/" ++ pyLower idv :=
  ⟨rfl, rfl, rfl, rfl, rfl⟩

/-- C6 counterexample: the GA country-detail request for "Spain" targets the
lowercased path, so the identifier is not embedded verbatim. -/
theorem C6_counterexample :
    (GoogleAnalyticsClient.country_detail_request "Spain" "2025-01-01" "2025-01-31").endpoint
      = "/google-analytics/countries/spain"
  ∧ "/google-analytics/countries/spain" ≠ "/google-analytics/countries/" ++ "Spain" := by
  exact ⟨rfl, by decide⟩

/-- C7 (amended): a network-level failure raises an Error with the fixed
service-unavailable status 503 and a non-empty message list; an upstream
non-2xx failure raises an Error carrying the upstream response's own status
code, so the two classifications differ exactly when the upstream status is
not itself 503.  (The claim's unconditional distinctness fails when the
upstream returns 503: see the counterexample.) -/
theorem C7_error_classification (req : HttpReq) (msg : String) (s : Nat) (body : ErrBody) :
    make_request (fun _ => HttpOutcome.netError msg) req
      = Except.error ⟨503, ["Failed to connect to the service: " ++ msg]⟩
  ∧ make_request (fun _ => HttpOutcome.httpError s body) req
      = Except.error (APIError.init s (some (extract_errors (errBodyData body))) none)
  ∧ (APIError.init s (some (extract_errors (errBodyData body))) none).status_code = s
  ∧ (APIError.init s (some (extract_errors (errBodyData body))) none).errors ≠ []
  ∧ (s ≠ 503 →
      (APIError.init s (some (extract_errors (errBodyData body))) none).status_code ≠ 503) := by
  refine ⟨rfl, rfl, APIError.init_status s _ none, APIError.init_errors_ne_nil s _ none, ?_⟩
  intro hs
  rw [APIError.init_status s _ none]
  exact hs

/-- C7 counterexample: an upstream HTTP 503 yields an Error with status 503 —
indistinguishable in classification from the fixed connectivity-failure
status. -/
theorem C7_counterexample :
    make_request (fun _ => HttpOutcome.httpError 503 ⟨none, "upstream unavailable"⟩)
      { method := "GET", endpoint := "/google-ads/overall", params := [] }
      = Except.error ⟨503, ["upstream unavailable"]⟩
  ∧ make_request (fun _ => HttpOutcome.netError "connection refused")
      { method := "GET", endpoint := "/google-ads/overall", params := [] }
      = Except.error ⟨503, ["Failed to connect to the service: connection refused"]⟩ :=
  ⟨rfl, rfl⟩

/-- C7 witness: the amended theorem applied at upstream status 404, whose Error
classification indeed differs from 503. -/
theorem C7_witness :
    (APIError.init 404 (some (extract_errors (errBodyData ⟨none, "not found"⟩))) none).status_code
      ≠ 503 :=
  (C7_error_classification { method := "GET", endpoint := "/google-analytics/overall", params := [] }
      "boom" 404 ⟨none, "not found"⟩).2.2.2.2 (by decide)

/-- C8: for the ranking fetches (GA countries and pages, GSC keywords and
countries), an absent search argument sends no search query parameter, and an
absent limit argument resolves through the schema default to limit=10 in the
outbound request. -/
theorem C8_ranking_defaults (start_date end_date : String) (limit : Int) :
    (GoogleAnalyticsClient.countries_request start_date end_date "desc" limit none).params
      = [("start_date", start_date), ("end_date", end_date), ("order_by", "desc"),
         ("limit", toString limit)]
  ∧ (GoogleAnalyticsClient.pages_request start_date end_date "desc" limit none).params
      = [("start_date", start_date), ("end_date", end_date), ("order_by", "desc"),
         ("limit", toString limit)]
  ∧ (GoogleSearchConsoleClient.keywords_request start_date end_date limit none).params
      = [("start_date", start_date), ("end_date", end_date), ("limit", toString limit)]
  ∧ (GoogleSearchConsoleClient.countries_request start_date end_date limit none).params
      = [("start_date", start_date), ("end_date", end_date), ("limit", toString limit)]
  ∧ (ToolArgs.ofRequired start_date end_date).limit = 10
  ∧ (GoogleAnalyticsClient.countries_request start_date end_date "desc"
        (ToolArgs.ofRequired start_date end_date).limit
        (ToolArgs.ofRequired start_date end_date).search).params
      = [("start_date", start_date), ("end_date", end_date), ("order_by", "desc"),
         ("limit", "10")]
  ∧ (GoogleAnalyticsClient.pages_request start_date end_date "desc"
        (ToolArgs.ofRequired start_date end_date).limit
        (ToolArgs.ofRequired start_date end_date).search).params
      = [("start_date", start_date), ("end_date", end_date), ("order_by", "desc"),
         ("limit", "10")]
  ∧ (GoogleSearchConsoleClient.keywords_request start_date end_date
        (ToolArgs.ofRequired start_date end_date).limit
        (ToolArgs.ofRequired start_date end_date).search).params
      = [("start_date", start_date), ("end_date", end_date), ("limit", "10")]
  ∧ (GoogleSearchConsoleClient.countries_request start_date end_date
        (ToolArgs.ofRequired start_date end_date).limit
        (ToolArgs.ofRequired start_date end_date).search).params
      = [("start_date", start_date), ("end_date", end_date), ("limit", "10")] :=
  ⟨rfl, rfl, rfl, rfl, rfl, rfl, rfl, rfl, rfl⟩

/-- C9: however `APIError.__init__` is invoked (errors=None, errors=[], errors
omitted with a single message, or an explicit non-empty list), the constructed
error's errors attribute is a non-empty list; an empty or missing list (with no
message) is normalized to ["An unknown API error occurred."], and a message
with no list becomes a singleton. -/
theorem C9_apierror_invariant (status_code : Nat) (errors : Option (List String))
    (message : Option String) (m x : String) (xs : List String) :
    (APIError.init status_code errors message).errors ≠ []
  ∧ (APIError.init status_code none none).errors = ["An unknown API error occurred."]
  ∧ (APIError.init status_code (some []) message).errors = ["An unknown API error occurred."]
  ∧ (APIError.init status_code none (some m)).errors = [m]
  ∧ (APIError.init status_code (some (x :: xs)) message).errors = x :: xs :=
  ⟨APIError.init_errors_ne_nil status_code errors message, rfl, rfl, rfl, rfl⟩

/-- C10: an assistant message is dropped by the visibility filter exactly when
its content is empty and its tool_calls list is non-empty; a retained assistant
message (non-empty content, with or without tool calls) is emitted as a record
holding exactly a role and a content, so its ToolCalls are stripped from the
public output. -/
theorem C10_assistant_with_toolcalls (c : String) (tcs : List ToolCallData) :
    (is_public (PyMessage.ai c tcs) = false ↔ (c = "" ∧ tcs ≠ []))
  ∧ (c ≠ "" → to_public_messages [PyMessage.ai c tcs]
      = Except.ok [{ role := "assistant", content := c }]) := by
  constructor
  · rw [is_public]
    by_cases hc : c = ""
    · by_cases htc : tcs = []
      · subst hc htc; simp
      · subst hc
        simp [htc, List.isEmpty_iff, String.isEmpty_iff]
    · have hc' : c.isEmpty = false := by
        rcases hb : c.isEmpty with _ | _
        · rfl
        · exact absurd ((String.isEmpty_iff c).mp hb) hc
      simp [hc', hc]
  · intro hc
    have hc' : c.isEmpty = false := by
      rcases hb : c.isEmpty with _ | _
      · rfl
      · exact absurd ((String.isEmpty_iff c).mp hb) hc
    rw [to_public_messages]
    rw [show is_public (PyMessage.ai c tcs) = true by rw [is_public, hc']; simp]
    rfl

/-- C10 witness: an assistant message with a tool call and non-empty content is
retained and emitted with its tool call stripped. -/
theorem C10_witness :
    to_public_messages
        [PyMessage.ai "Here are the results" [⟨"call1", "get_google_ads_overall", []⟩]]
      = Except.ok [{ role := "assistant", content := "Here are the results" }] :=
  (C10_assistant_with_toolcalls "Here are the results"
      [⟨"call1", "get_google_ads_overall", []⟩]).2 (by decide)
